import Mathlib

/-!
# Gateway Matrix API - verification of the ingestion orchestration core

Shallow embedding of the source lifecycle controller
(`app/workers/source_monitor_worker.py`), process supervisor
(`app/utils/ffmpeg_wrapper.py`), alert rule engine
(`app/workers/alert_worker.py`), recording stop logic
(`app/services/recording_service.py`, `app/workers/recording_worker.py`),
manual reconnect (`app/services/source_service.py`) and the UDP multicast
validator (`app/schemas/source.py`).

Timestamps are modelled as `Nat` microseconds since an arbitrary epoch,
matching Python `datetime` resolution.  The Python expression
`(a - b).seconds` on a `timedelta` yields the seconds-within-day component
(the whole days are discarded); for `b ≤ a` that is
`((a - b) / 1000000) % 86400`, embedded below as `tdSeconds`.
-/

namespace GatewayMatrix

/-- Python `(a - b).seconds` for microsecond timestamps `b ≤ a`: whole
seconds of the difference, with full days discarded
(`datetime.timedelta` normalises to `days`/`seconds`/`microseconds`). -/
def tdSeconds (a b : Nat) : Nat := ((a - b) / 1000000) % 86400

/-- Python truthiness of an optional integer field: `None` and `0` are falsy. -/
def pyTruthyNat : Option Nat → Bool
  | none => false
  | some n => n != 0

/-! ## String-keyed dictionaries

Python `dict` with string keys, embedded as an association list whose
keys stay unique: assignment replaces the existing entry in place
(as CPython does) or appends a fresh one. -/

/-- Dictionary lookup (`d[k]` / `d.get(k)`): first entry with the key. -/
def dictGet : List (String × Nat) → String → Option Nat
  | [], _ => none
  | (k, v) :: rest, key => if k = key then some v else dictGet rest key

/-- Dictionary assignment `d[k] = v`: replace in place if the key exists,
else append. -/
def dictSet : List (String × Nat) → String → Nat → List (String × Nat)
  | [], key, v => [(key, v)]
  | (k, w) :: rest, key, v =>
      if k = key then (key, v) :: rest else (k, w) :: dictSet rest key v

/-- Number of entries carrying a given key. -/
def countKey (l : List (String × Nat)) (key : String) : Nat :=
  (l.filter (fun p => p.1 = key)).length

/-- Membership test `k in d`. -/
def dictHas (l : List (String × Nat)) (key : String) : Bool :=
  l.any (fun p => p.1 = key)

/-! ## Source data model (`app/models/source.py`) -/

/-- `SourceStatus` enum. -/
inductive SourceStatus where
  | connecting
  | online
  | unstable
  | offline
  | error
  deriving DecidableEq, Repr

/-- The `sources` row fields the lifecycle controller reads and writes
(`updated_at` and presentation-only columns are omitted). -/
structure Source where
  id : String
  name : String
  protocol : String
  endpoint_url : String
  status : SourceStatus
  last_seen_at : Option Nat
  created_at : Option Nat
  is_active : Bool
  deriving DecidableEq, Repr

/-- `StreamInfo` fields consumed by the monitor worker
(`app/utils/stream_probe.py`); `fps` is the already-parsed frame rate. -/
structure StreamInfo where
  video_codec : Option String
  audio_codec : Option String
  resolution : Option String
  fps : Option Rat
  bitrate : Option Nat
  deriving DecidableEq, Repr

/-- `StreamInfo.is_valid`: at least one of video or audio codec present. -/
def StreamInfo.isValidInfo (si : StreamInfo) : Bool :=
  si.video_codec.isSome || si.audio_codec.isSome

/-- A `source_metrics` row as written by `SourceService.add_metric` from a
probe result (unsupplied columns stay `None`). -/
structure MetricRow where
  timestamp : Nat
  video_codec : Option String
  audio_codec : Option String
  resolution : Option String
  fps : Option Rat
  bitrate_kbps : Option Nat
  deriving DecidableEq, Repr

/-- The metric row built in `_handle_connecting` / `_handle_online`:
`bitrate_kbps = stream_info.bitrate // 1000 if stream_info.bitrate else None`
(Python truthiness: a zero bitrate also yields `None`). -/
def metricFromInfo (now : Nat) (si : StreamInfo) : MetricRow :=
  { timestamp := now
    video_codec := si.video_codec
    audio_codec := si.audio_codec
    resolution := si.resolution
    fps := si.fps
    bitrate_kbps := if pyTruthyNat si.bitrate then some (si.bitrate.getD 0 / 1000) else none }

/-! ## Source Monitor Worker (`app/workers/source_monitor_worker.py`)

One `_monitor_source` call on one source.  The environment carries the
externally observed facts of that cycle: whether the supervisor holds a
live handle for the source (`ffmpeg_wrapper.is_running`), whether the
probe interval has elapsed (`_should_probe`), the probe outcome
(`stream_probe.probe`: `none` on failure), whether `_start_ingest`'s
spawn succeeds, and the current clock. -/

structure MonitorEnv where
  ffmpeg_running : Bool
  should_probe : Bool
  probe_result : Option StreamInfo
  start_ingest_ok : Bool
  now : Nat
  deriving DecidableEq, Repr

/-- Result of one `_monitor_source` call: the persisted source row and the
metric rows appended during the call. -/
structure MonitorResult where
  source : Source
  metrics : List MetricRow
  deriving DecidableEq, Repr

/-- The connect-deadline check at the end of `_handle_connecting`:
`if source.created_at and (datetime.utcnow() - source.created_at).seconds > 60`
then the source is updated to `error`. -/
def connectingTimeout (s : Source) (now : Nat) : MonitorResult :=
  match s.created_at with
  | some c =>
      if tdSeconds now c > 60 then
        ⟨{ s with status := SourceStatus.error }, []⟩
      else
        ⟨s, []⟩
  | none => ⟨s, []⟩

/-- `_handle_connecting`: start ingestion when no handle is running
(a failed start is caught and the source set to `error`); otherwise, on
the probe interval, a valid probe moves the source to `online`, records
`last_seen_at` and appends one metric row, and a failed probe runs the
connect-deadline check. -/
def handleConnecting (s : Source) (env : MonitorEnv) : MonitorResult :=
  if !env.ffmpeg_running then
    if env.start_ingest_ok then ⟨s, []⟩
    else ⟨{ s with status := SourceStatus.error }, []⟩
  else if env.should_probe then
    match env.probe_result with
    | some si =>
        if si.isValidInfo then
          ⟨{ s with status := SourceStatus.online, last_seen_at := some env.now },
            [metricFromInfo env.now si]⟩
        else connectingTimeout s env.now
    | none => connectingTimeout s env.now
  else ⟨s, []⟩

/-- `_handle_online`: a dead handle moves the source to `offline`;
otherwise, on the probe interval, a valid probe refreshes `last_seen_at`
and appends one metric row, and a failed probe moves the source to
`unstable`. -/
def handleOnline (s : Source) (env : MonitorEnv) : MonitorResult :=
  if !env.ffmpeg_running then
    ⟨{ s with status := SourceStatus.offline }, []⟩
  else if env.should_probe then
    match env.probe_result with
    | some si =>
        if si.isValidInfo then
          ⟨{ s with last_seen_at := some env.now }, [metricFromInfo env.now si]⟩
        else ⟨{ s with status := SourceStatus.unstable }, []⟩
    | none => ⟨{ s with status := SourceStatus.unstable }, []⟩
  else ⟨s, []⟩

/-- `_monitor_source`: dispatch on the current status.  The Python
`if/elif` chain has branches for `connecting`, `online`, `offline` and
`error` only — a source whose status is `unstable` matches none of them
and the call does nothing. -/
def monitorSource (s : Source) (env : MonitorEnv) : MonitorResult :=
  match s.status with
  | SourceStatus.connecting => handleConnecting s env
  | SourceStatus.online => handleOnline s env
  | SourceStatus.offline => ⟨s, []⟩
  | SourceStatus.error => ⟨s, []⟩
  | SourceStatus.unstable => ⟨s, []⟩

/-- The `on_error` callback installed by `_start_ingest`: any reported
process error updates the source to `error`. -/
def sourceOnError (s : Source) : Source :=
  { s with status := SourceStatus.error }

/-- `SourceService.reconnect_source` on a found source: stop any ingest
handle for the key, then update the status to `connecting`.  No check of
the current status is performed anywhere on this path (the router only
checks existence). -/
def reconnectSource (s : Source) : Source :=
  { s with status := SourceStatus.connecting }

/-- The transition matrix of spec section 4.3, stated from the spec's
words: `connecting → online ⇄ unstable`, `online → offline`,
any → `error`, `error|offline → connecting`. -/
def specStatusMatrix : SourceStatus → SourceStatus → Bool
  | SourceStatus.connecting, SourceStatus.online => true
  | SourceStatus.online, SourceStatus.unstable => true
  | SourceStatus.unstable, SourceStatus.online => true
  | SourceStatus.online, SourceStatus.offline => true
  | SourceStatus.error, SourceStatus.connecting => true
  | SourceStatus.offline, SourceStatus.connecting => true
  | _, SourceStatus.error => true
  | _, _ => false

/-! ## Process Supervisor (`app/utils/ffmpeg_wrapper.py`)

`FFmpegWrapper.start_ingest` / `stop_ingest` over the
`active_processes` registry.  Handles are modelled by the pid of their
subprocess.  The environment fixes the outcome of the two external
effects: the hosted-video URL resolution (`_extract_youtube_url`, `none`
on failure) and the subprocess spawn
(`asyncio.create_subprocess_exec`, `Except.error` when it raises). -/

/-- The `connection_params` keys `_build_input_args` reads
(the dict is opaque; every other key is ignored by the supervisor). -/
structure ConnParams where
  latency : Option Nat
  mode : Option String
  buffer_size : Option Nat
  multicast_group : Option String
  transport : Option String
  deriving DecidableEq, Repr

/-- An absent `connection_params` dict (`params = connection_params or {}`). -/
def ConnParams.empty : ConnParams :=
  { latency := none, mode := none, buffer_size := none
    multicast_group := none, transport := none }

/-- External outcomes of one `start_ingest` call. -/
structure IngestEnv where
  resolveResult : Option String
  spawnResult : Except String Nat
  deriving Repr

/-- `_build_input_args`: per-protocol input argument list.  For
`youtube` a failed URL resolution raises
`ValueError("Falha ao extrair URL do stream do YouTube")`; `srt` appends
`mode` (default `caller`) and `latency` (default 200) query parameters;
`udp` applies `buffer_size` (default 212992) — the `multicast_group`
key is only logged here, never validated; `rtsp` forces the configured
transport (default `tcp`); `hls`, `http_ts`, `dash` and every unknown
protocol pass the endpoint directly. -/
def buildInputArgs (protocol endpoint : String) (params : Option ConnParams)
    (resolveResult : Option String) : Except String (List String) :=
  let p := params.getD ConnParams.empty
  if protocol = "youtube" then
    match resolveResult with
    | none => Except.error "Falha ao extrair URL do stream do YouTube"
    | some url => Except.ok ["-i", url]
  else if protocol = "srt" then
    Except.ok ["-i",
      endpoint ++ "?mode=" ++ p.mode.getD "caller"
        ++ "&latency=" ++ toString (p.latency.getD 200)]
  else if protocol = "udp" then
    Except.ok ["-buffer_size", toString (p.buffer_size.getD 212992), "-i", endpoint]
  else if protocol = "rtsp" then
    Except.ok ["-rtsp_transport", p.transport.getD "tcp", "-i", endpoint]
  else
    Except.ok ["-i", endpoint]

/-- Observable outcome of one `start_ingest` or `stop_ingest` call:
the registry afterwards, the error-callback invocations, the pids the
call terminated, and the returned value or raised error. -/
structure IngestOutcome where
  registry : List (String × Nat)
  callbackErrors : List String
  stopped : List Nat
  outcome : Except String Nat
  deriving Repr

/-- `start_ingest`: build the input arguments (a `ValueError` there is
caught, forwarded to the error callback when one was given, and
re-raised); then spawn the subprocess (an exception there likewise fires
the callback and is re-raised).  Only on a successful spawn is the
handle stored — `self.active_processes[source_id] = ffmpeg_proc` — a
plain dict assignment that never touches the previously stored handle's
process. -/
def startIngest (reg : List (String × Nat)) (source_id protocol endpoint : String)
    (params : Option ConnParams) (hasCallback : Bool) (env : IngestEnv) : IngestOutcome :=
  match buildInputArgs protocol endpoint params env.resolveResult with
  | Except.error e =>
      { registry := reg
        callbackErrors := if hasCallback then [e] else []
        stopped := []
        outcome := Except.error e }
  | Except.ok _args =>
      match env.spawnResult with
      | Except.error e =>
          { registry := reg
            callbackErrors := if hasCallback then [e] else []
            stopped := []
            outcome := Except.error e }
      | Except.ok pid =>
          { registry := dictSet reg source_id pid
            callbackErrors := []
            stopped := []
            outcome := Except.ok pid }

/-- `stop_ingest`: when a handle exists, terminate its process, delete
the registry entry and return `true` (modelled as outcome `1`);
otherwise return `false` (outcome `0`). -/
def stopIngest (reg : List (String × Nat)) (source_id : String) : IngestOutcome :=
  match dictGet reg source_id with
  | some pid =>
      { registry := reg.filter (fun p => p.1 ≠ source_id)
        callbackErrors := []
        stopped := [pid]
        outcome := Except.ok 1 }
  | none =>
      { registry := reg, callbackErrors := [], stopped := [], outcome := Except.ok 0 }

/-! ## UDP multicast validation (`app/schemas/source.py`)

`SourceCreateSchema.validate_connection_params` checks a supplied
`multicast_group` against the regular expression
`^(22[4-9]|23[0-9])\.(\d{1,3})\.(\d{1,3})\.(\d{1,3})$` and raises a
`ValueError` on a non-match.  The regex is embedded as a character-list
parser: four dot-separated groups, the first matching `22[4-9]|23[0-9]`
and the rest one to three digits each. -/

/-- Split a character list at every dot (the regex groups contain no
dot, so this matches the regex's view of the string). -/
def splitDots : List Char → List (List Char)
  | [] => [[]]
  | c :: rest =>
      let tail := splitDots rest
      if c = '.' then [] :: tail
      else
        match tail with
        | [] => [[c]]
        | g :: gs => (c :: g) :: gs

/-- One to three decimal digits (`\d{1,3}`). -/
def digits1to3 (g : List Char) : Bool :=
  decide (1 ≤ g.length) && decide (g.length ≤ 3) && g.all Char.isDigit

/-- The first group of the regex: `22[4-9]|23[0-9]`, over character
codes (52–57 are the digits 4–9, 48–57 the digits 0–9). -/
def firstOctetRegex : List Char → Bool
  | [c1, c2, c3] =>
      if c1 = '2' ∧ c2 = '2' then decide (52 ≤ c3.toNat ∧ c3.toNat ≤ 57)
      else if c1 = '2' ∧ c2 = '3' then decide (48 ≤ c3.toNat ∧ c3.toNat ≤ 57)
      else false
  | _ => false

/-- Full-string match of the schema's multicast regex. -/
def multicastRegexAccepts (s : String) : Bool :=
  match splitDots s.toList with
  | [a, b, c, d] => firstOctetRegex a && digits1to3 b && digits1to3 c && digits1to3 d
  | _ => false

/-- Numeric value of a digit group. -/
def digitsVal (g : List Char) : Nat :=
  g.foldl (fun acc c => acc * 10 + (c.toNat - 48)) 0

/-- Modelled from the spec: a textual IPv4 address lying in the
multicast range 224.0.0.0 – 239.255.255.255 (four dot-separated decimal
octets, each at most 255, the first between 224 and 239). -/
def specMulticastIPv4 (s : String) : Bool :=
  match splitDots s.toList with
  | [a, b, c, d] =>
      digits1to3 a && digits1to3 b && digits1to3 c && digits1to3 d
        && decide (224 ≤ digitsVal a) && decide (digitsVal a ≤ 239)
        && decide (digitsVal b ≤ 255) && decide (digitsVal c ≤ 255)
        && decide (digitsVal d ≤ 255)
  | _ => false

/-- `validate_connection_params` restricted to its UDP/multicast branch:
`true` when the params pass, `false` when the validator raises.  Only a
`udp` source with a `multicast_group` key is ever checked. -/
def validateConnectionParams (protocol : String) (params : Option ConnParams) : Bool :=
  match params with
  | none => true
  | some p =>
      if protocol = "udp" then
        match p.multicast_group with
        | some g => multicastRegexAccepts g
        | none => true
      else true

/-! ## Recording stop path (`app/services/recording_service.py`,
`app/workers/recording_worker.py`) -/

/-- `RecordingStatus` enum. -/
inductive RecordingStatus where
  | recording
  | completed
  | failed
  | processing
  deriving DecidableEq, Repr

/-- The `recordings` row fields touched by the stop path. -/
structure Recording where
  id : String
  channel_id : String
  started_at : Option Nat
  ended_at : Option Nat
  duration_seconds : Option Nat
  status : RecordingStatus
  file_path : Option String
  deriving DecidableEq, Repr

/-- `RecordingService.stop_recording` on a found recording: set
`ended_at` to now, set status `completed`, and when `started_at` is
present set `duration_seconds = int((ended_at - started_at).total_seconds())`
— the whole-second floor of the elapsed time. -/
def stopRecording (rec : Recording) (now : Nat) : Recording :=
  { rec with
    ended_at := some now
    status := RecordingStatus.completed
    duration_seconds :=
      match rec.started_at with
      | some s => some ((now - s) / 1000000)
      | none => rec.duration_seconds }

/-- `RecordingWorker._monitor_recording` after the capture process exits
on its own: finalize via `stop_recording` only while the row is still in
`recording` status. -/
def monitorRecordingFinalize (rec : Recording) (now : Nat) : Recording :=
  if rec.status = RecordingStatus.recording then stopRecording rec now else rec

/-- `RecordingWorker._stop_recording` (the cycle's channel-no-longer-live
path and the manual-stop path both land here): terminate the capture
process when one is registered, then `RecordingService.stop_recording`
on the row.  Returns the row plus the pids terminated. -/
def workerStopRecording (activeRecs : List (String × Nat)) (rec : Recording)
    (now : Nat) : Recording × List Nat :=
  match dictGet activeRecs rec.id with
  | some pid => (stopRecording rec now, [pid])
  | none => (stopRecording rec now, [])

/-! ## Alert Rule Engine (`app/workers/alert_worker.py`)

`AlertRule` keeps a per-entity last-fired timestamp map and a fixed
cooldown (300 s).  `_check_rule` walks the breach descriptors a check
function produced, fires those whose cooldown has elapsed
(`_create_alert` then `mark_triggered`), and skips the rest.  The
engine's `message_template` string and the descriptor's presentation
fields are formatting-only and are omitted from the model. -/

/-- In-memory alert rule state (`AlertRule.__init__`: cooldown 300 s,
empty `last_triggered` map). -/
structure AlertRule where
  name : String
  severity : String
  cooldown_seconds : Nat
  last_triggered : List (String × Nat)
  deriving DecidableEq, Repr

/-- `AlertRule.can_trigger`: no recorded firing, or
`(utcnow() - last).seconds >= cooldown_seconds`. -/
def canTrigger (r : AlertRule) (entity_id : String) (now : Nat) : Bool :=
  match dictGet r.last_triggered entity_id with
  | none => true
  | some t0 => decide (tdSeconds now t0 ≥ r.cooldown_seconds)

/-- `AlertRule.mark_triggered`: record the firing time for the entity. -/
def markTriggered (r : AlertRule) (entity_id : String) (now : Nat) : AlertRule :=
  { r with last_triggered := dictSet r.last_triggered entity_id now }

/-- A breach descriptor as returned by a rule's check function. -/
structure Breach where
  entity_id : String
  entity_type : String
  name : String
  deriving DecidableEq, Repr

/-- The `channels` columns `_create_alert` consults. -/
structure ChannelRow where
  id : String
  source_id : Option String
  deriving DecidableEq, Repr

/-- An `ai_insights` row as created by `AIAnalysisService.create_insight`
from `_create_alert` (description/data are rendered text, omitted). -/
structure Insight where
  channel_id : String
  insight_type : String
  severity : String
  title : String
  is_actionable : Bool
  deriving DecidableEq, Repr

/-- `_create_alert`: resolve the channel — the breach's own id for a
channel breach, else the first channel row referencing the source id.
Without a channel the alert is logged and dropped (`return` before
`create_insight`); otherwise one insight row is created. -/
def createAlert (channels : List ChannelRow) (r : AlertRule) (b : Breach) : Option Insight :=
  let channel_id : Option String :=
    if b.entity_type = "channel" then some b.entity_id
    else if b.entity_type = "source" then
      (channels.find? (fun c => c.source_id = some b.entity_id)).map (fun c => c.id)
    else none
  match channel_id with
  | none => none
  | some cid =>
      some { channel_id := cid
             insight_type := "alert"
             severity := r.severity
             title := "Alerta: " ++ r.name
             is_actionable := true }

/-- Observable outcome of processing a list of breach descriptors. -/
structure CheckOutcome where
  rule : AlertRule
  fires : List (Nat × String)
  insights : List Insight
  deriving DecidableEq, Repr

/-- `_check_rule` over the breaches a check function returned, each
attempt stamped with the clock value at which it is processed (the code
reads `datetime.utcnow()` at the check and again at the mark; the model
uses one timestamp per attempt).  A firing attempt creates the alert
(when a channel resolves) and then marks the entity — unconditionally,
even when `_create_alert` dropped the insight. -/
def checkRule (channels : List ChannelRow) :
    AlertRule → List (Nat × Breach) → CheckOutcome
  | r, [] => { rule := r, fires := [], insights := [] }
  | r, (t, b) :: rest =>
      if canTrigger r b.entity_id t then
        let ins := createAlert channels r b
        let out := checkRule channels (markTriggered r b.entity_id t) rest
        { rule := out.rule
          fires := (t, b.entity_id) :: out.fires
          insights := ins.toList ++ out.insights }
      else
        checkRule channels r rest

/-- The `low_bitrate` rule as registered by `_setup_rules`. -/
def lowBitrateRule : AlertRule :=
  { name := "low_bitrate", severity := "warning"
    cooldown_seconds := 300, last_triggered := [] }

/-- `_check_low_bitrate` for one source returned by the
active-and-online query, with its most recent metric row:
`if recent_metric and recent_metric.bitrate_kbps:` (Python truthiness —
a `None` or zero bitrate is skipped) then a breach when the bitrate is
below the 500 kbps threshold. -/
def checkLowBitrateOne (s : Source) (recent : Option MetricRow) : Option Breach :=
  if s.is_active && (s.status = SourceStatus.online) then
    match recent with
    | none => none
    | some m =>
        if pyTruthyNat m.bitrate_kbps then
          if m.bitrate_kbps.getD 0 < 500 then
            some { entity_id := s.id, entity_type := "source", name := s.name }
          else none
        else none
  else none

/-- `_check_low_bitrate` over the whole query result. -/
def checkLowBitrate (rows : List (Source × Option MetricRow)) : List Breach :=
  rows.foldr
    (fun sm acc =>
      match checkLowBitrateOne sm.1 sm.2 with
      | some b => b :: acc
      | none => acc)
    []

/-! ## Helper lemmas -/

theorem dictGet_dictSet_self (l : List (String × Nat)) (key : String) (v : Nat) :
    dictGet (dictSet l key v) key = some v := by
  induction l with
  | nil => simp [dictSet, dictGet]
  | cons p rest ih =>
      obtain ⟨k, w⟩ := p
      by_cases hp : k = key
      · simp [dictSet, dictGet, hp]
      · simp [dictSet, dictGet, hp, ih]

theorem dictGet_dictSet_ne (l : List (String × Nat)) (key other : String) (v : Nat)
    (h : other ≠ key) : dictGet (dictSet l key v) other = dictGet l other := by
  induction l with
  | nil => simp [dictSet, dictGet, Ne.symm h]
  | cons p rest ih =>
      obtain ⟨k, w⟩ := p
      by_cases hp : k = key
      · subst hp
        simp [dictSet, dictGet, Ne.symm h]
      · by_cases hk : k = other
        · simp [dictSet, dictGet, hp, hk, h]
        · simp [dictSet, dictGet, hp, hk, ih]

theorem countKey_dictSet (l : List (String × Nat)) (key : String) (v : Nat) :
    countKey (dictSet l key v) key = max 1 (countKey l key) := by
  induction l with
  | nil => simp [dictSet, countKey]
  | cons p rest ih =>
      obtain ⟨k, w⟩ := p
      by_cases hp : k = key
      · subst hp
        simp only [dictSet, if_pos rfl, countKey, List.filter_cons]
        simp
      · simp only [dictSet, if_neg hp, countKey, List.filter_cons] at ih ⊢
        simp only [hp, decide_False]
        simpa using ih

theorem tdSeconds_ge_bound (now t0 c : Nat) (h : t0 ≤ now)
    (hge : c ≤ tdSeconds now t0) : t0 + c * 1000000 ≤ now := by
  unfold tdSeconds at hge
  set q := (now - t0) / 1000000 with hq
  have h1 : q % 86400 ≤ q := Nat.mod_le _ _
  have h2 : c ≤ q := le_trans hge h1
  have h3 : q * 1000000 ≤ now - t0 := by
    rw [hq]
    exact Nat.div_mul_le_self _ _
  have h4 : c * 1000000 ≤ q * 1000000 := Nat.mul_le_mul_right _ h2
  omega

theorem tdSeconds_lt_window (now t0 c : Nat) (h : t0 ≤ now)
    (hw : now < t0 + c * 1000000) : tdSeconds now t0 < c := by
  unfold tdSeconds
  have h2 : (now - t0) / 1000000 < c :=
    Nat.div_lt_of_lt_mul (show now - t0 < 1000000 * c by omega)
  exact lt_of_le_of_lt (Nat.mod_le _ _) h2

theorem connectingTimeout_status (s : Source) (now : Nat) :
    (connectingTimeout s now).source.status = s.status
    ∨ (connectingTimeout s now).source.status = SourceStatus.error := by
  unfold connectingTimeout
  cases hca : s.created_at with
  | none => exact Or.inl rfl
  | some c =>
      by_cases h : tdSeconds now c > 60
      · simp [h]
      · simp [h]

theorem handleConnecting_status (s : Source) (env : MonitorEnv) :
    (handleConnecting s env).source.status = s.status
    ∨ (handleConnecting s env).source.status = SourceStatus.online
    ∨ (handleConnecting s env).source.status = SourceStatus.error := by
  unfold handleConnecting
  by_cases hrun : (!env.ffmpeg_running) = true
  · rw [if_pos hrun]
    by_cases hok : env.start_ingest_ok = true
    · rw [if_pos hok]
      exact Or.inl rfl
    · rw [if_neg hok]
      exact Or.inr (Or.inr rfl)
  · rw [if_neg hrun]
    by_cases hsp : env.should_probe = true
    · rw [if_pos hsp]
      cases hpr : env.probe_result with
      | none =>
          simp only [hpr]
          rcases connectingTimeout_status s env.now with h | h
          · exact Or.inl h
          · exact Or.inr (Or.inr h)
      | some si =>
          simp only [hpr]
          by_cases hv : si.isValidInfo = true
          · rw [if_pos hv]
            exact Or.inr (Or.inl rfl)
          · rw [if_neg hv]
            rcases connectingTimeout_status s env.now with h | h
            · exact Or.inl h
            · exact Or.inr (Or.inr h)
    · rw [if_neg hsp]
      exact Or.inl rfl

theorem handleOnline_status (s : Source) (env : MonitorEnv) :
    (handleOnline s env).source.status = s.status
    ∨ (handleOnline s env).source.status = SourceStatus.offline
    ∨ (handleOnline s env).source.status = SourceStatus.unstable := by
  unfold handleOnline
  by_cases hrun : (!env.ffmpeg_running) = true
  · rw [if_pos hrun]
    exact Or.inr (Or.inl rfl)
  · rw [if_neg hrun]
    by_cases hsp : env.should_probe = true
    · rw [if_pos hsp]
      cases hpr : env.probe_result with
      | none => simp [hpr]
      | some si =>
          simp only [hpr]
          by_cases hv : si.isValidInfo = true
          · rw [if_pos hv]
            exact Or.inl rfl
          · rw [if_neg hv]
            exact Or.inr (Or.inr rfl)
    · rw [if_neg hsp]
      exact Or.inl rfl

/-! ## Claims -/

/-- C1 counterexample: a manual reconnect request on a source whose
persisted status is `online` sets the status to `connecting` —
`SourceService.reconnect_source` (and its router) never inspects the
current status — yet `online → connecting` lies outside the section 4.3
matrix, refuting the claim that no operation produces a transition
outside the matrix. -/
theorem C1_counterexample :
    (reconnectSource
      { id := "s1", name := "fonte", protocol := "srt"
        endpoint_url := "srt://h:9000", status := SourceStatus.online
        last_seen_at := some 0, created_at := some 0, is_active := true }).status
      = SourceStatus.connecting
    ∧ specStatusMatrix SourceStatus.online SourceStatus.connecting = false := by
  constructor <;> rfl

/-- C1 (amended): every lifecycle-cycle transition stays within the
section 4.3 matrix and the cycle never moves a source into `connecting`;
the error callback moves any source to `error` (within the matrix); a
manual reconnect sets the status to `connecting` from any current
status, not only from `error` or `offline`. -/
theorem C1_transition_matrix (s : Source) (env : MonitorEnv) :
    ((monitorSource s env).source.status = s.status
      ∨ specStatusMatrix s.status (monitorSource s env).source.status = true)
    ∧ ((monitorSource s env).source.status = SourceStatus.connecting
        → s.status = SourceStatus.connecting)
    ∧ (sourceOnError s).status = SourceStatus.error
    ∧ specStatusMatrix s.status SourceStatus.error = true
    ∧ (reconnectSource s).status = SourceStatus.connecting := by
  have hc := handleConnecting_status s env
  have ho := handleOnline_status s env
  refine ⟨?_, ?_, rfl, ?_, rfl⟩
  · rcases hst : s.status with _ | _ | _ | _ | _ <;> simp only [monitorSource, hst]
    · rcases hc with h | h | h
      · exact Or.inl (h.trans hst)
      · refine Or.inr ?_
        rw [h]
        rfl
      · refine Or.inr ?_
        rw [h]
        rfl
    · rcases ho with h | h | h
      · exact Or.inl (h.trans hst)
      · refine Or.inr ?_
        rw [h]
        rfl
      · refine Or.inr ?_
        rw [h]
        rfl
    · exact Or.inl trivial
    · exact Or.inl trivial
    · exact Or.inl trivial
  · intro hcon
    rcases hst : s.status with _ | _ | _ | _ | _ <;>
      simp only [monitorSource, hst] at hcon <;> try rfl
    · rcases ho with h | h | h
      · rw [h, hst] at hcon
        cases hcon
      · rw [h] at hcon
        cases hcon
      · rw [h] at hcon
        cases hcon
    · cases hcon
    · cases hcon
    · cases hcon
  · rcases hst : s.status with _ | _ | _ | _ | _ <;> rfl

/-- C1 witness: at a concrete `online` source the cycle's result status
is `unstable` (inside the matrix), the result is not `connecting`, and
the reconnect path yields `connecting`. -/
theorem C1_transition_matrix_witness :
    let s : Source :=
      { id := "s1", name := "fonte", protocol := "srt"
        endpoint_url := "srt://h:9000", status := SourceStatus.online
        last_seen_at := some 0, created_at := some 0, is_active := true }
    let env : MonitorEnv :=
      { ffmpeg_running := true, should_probe := true, probe_result := none
        start_ingest_ok := true, now := 70000000 }
    ((monitorSource s env).source.status = s.status
      ∨ specStatusMatrix s.status (monitorSource s env).source.status = true)
    ∧ (sourceOnError s).status = SourceStatus.error
    ∧ (reconnectSource s).status = SourceStatus.connecting := by
  have h := C1_transition_matrix
    { id := "s1", name := "fonte", protocol := "srt"
      endpoint_url := "srt://h:9000", status := SourceStatus.online
      last_seen_at := some 0, created_at := some 0, is_active := true }
    { ffmpeg_running := true, should_probe := true, probe_result := none
      start_ingest_ok := true, now := 70000000 }
  exact ⟨h.1, h.2.2.1, h.2.2.2.2⟩

/-- C2: the `_monitor_source` dispatcher has no branch for the
`unstable` status, so a cycle on an `unstable` source does nothing — no
probe outcome is consulted, the status never returns to `online`, no
last-seen refresh and no metric row happen.  This contradicts the spec
(section 4.3: `unstable` behaves like `online` for probing) and the
worker's own design, which demotes sources to `unstable` as a
transient, retried state. -/
theorem C2_unstable_ignored (s : Source) (env : MonitorEnv)
    (h : s.status = SourceStatus.unstable) :
    monitorSource s env = ⟨s, []⟩ := by
  unfold monitorSource
  rw [h]

/-- C2 witness: an active `unstable` source, probe interval elapsed and
a valid probe result available; the cycle still leaves the row untouched
and appends nothing. -/
theorem C2_unstable_ignored_witness :
    monitorSource
      { id := "s1", name := "fonte", protocol := "srt"
        endpoint_url := "srt://h:9000", status := SourceStatus.unstable
        last_seen_at := some 0, created_at := some 0, is_active := true }
      { ffmpeg_running := true, should_probe := true
        probe_result := some
          { video_codec := some "h264", audio_codec := some "aac"
            resolution := some "1280x720", fps := none, bitrate := some 2000000 }
        start_ingest_ok := true, now := 70000000 }
      = ⟨{ id := "s1", name := "fonte", protocol := "srt"
           endpoint_url := "srt://h:9000", status := SourceStatus.unstable
           last_seen_at := some 0, created_at := some 0, is_active := true }, []⟩ :=
  C2_unstable_ignored _ _ rfl

/-- C5 counterexample: a `connecting` source created 86410 seconds ago
(one day and ten seconds — far more than 60 seconds) with a running
handle and a failing probe is NOT moved to `error`: the code computes
`(utcnow() - created_at).seconds`, the seconds-within-day component,
which here is 10. -/
theorem C5_counterexample :
    (monitorSource
      { id := "s1", name := "fonte", protocol := "srt"
        endpoint_url := "srt://h:9000", status := SourceStatus.connecting
        last_seen_at := none, created_at := some 0, is_active := true }
      { ffmpeg_running := true, should_probe := true, probe_result := none
        start_ingest_ok := true, now := 86410000000 }).source.status
      = SourceStatus.connecting
    ∧ 86410000000 - 0 > 60 * 1000000 := by
  constructor
  · rfl
  · norm_num

/-- C5 (amended): for a `connecting` source with a running handle and a
failed probe attempt, the cycle transitions the source to `error`
exactly when the creation timestamp is recorded and the
seconds-within-day component of the elapsed time since creation —
whole elapsed seconds with full days discarded — exceeds 60; not
whenever more than 60 seconds have elapsed. -/
theorem C5_connect_deadline (s : Source) (env : MonitorEnv) (c : Nat)
    (hst : s.status = SourceStatus.connecting)
    (hrun : env.ffmpeg_running = true)
    (hpr : env.should_probe = true)
    (hfail : env.probe_result = none
      ∨ ∃ si, env.probe_result = some si ∧ si.isValidInfo = false)
    (hca : s.created_at = some c)
    (hdl : tdSeconds env.now c > 60) :
    (monitorSource s env).source.status = SourceStatus.error := by
  have htc : (connectingTimeout s env.now).source.status = SourceStatus.error := by
    unfold connectingTimeout
    simp only [hca]
    rw [if_pos hdl]
  have hb : (handleConnecting s env).source.status = SourceStatus.error := by
    unfold handleConnecting
    rw [hrun, hpr]
    rw [if_neg (show ¬((!true) = true) by decide)]
    rw [if_pos rfl]
    rcases hfail with hnone | ⟨si, hsi, hval⟩
    · simp only [hnone]
      exact htc
    · simp only [hsi]
      rw [if_neg (show ¬(si.isValidInfo = true) by simp [hval])]
      exact htc
  simp only [monitorSource, hst]
  exact hb

/-- C5 witness: 62 seconds after creation (still within the same day)
the failed probe does escalate the source to `error`. -/
theorem C5_connect_deadline_witness :
    tdSeconds 62000000 0 > 60
    ∧ (monitorSource
        { id := "s1", name := "fonte", protocol := "srt"
          endpoint_url := "srt://h:9000", status := SourceStatus.connecting
          last_seen_at := none, created_at := some 0, is_active := true }
        { ffmpeg_running := true, should_probe := true, probe_result := none
          start_ingest_ok := true, now := 62000000 }).source.status
      = SourceStatus.error := by
  refine ⟨by norm_num [tdSeconds], ?_⟩
  exact C5_connect_deadline _ _ 0 rfl rfl rfl (Or.inl rfl) rfl (by norm_num [tdSeconds])

theorem checkRule_cons_pos (channels : List ChannelRow) (r : AlertRule)
    (t : Nat) (b : Breach) (rest : List (Nat × Breach))
    (hcan : canTrigger r b.entity_id t = true) :
    checkRule channels r ((t, b) :: rest)
      = { rule := (checkRule channels (markTriggered r b.entity_id t) rest).rule
          fires := (t, b.entity_id)
            :: (checkRule channels (markTriggered r b.entity_id t) rest).fires
          insights := (createAlert channels r b).toList
            ++ (checkRule channels (markTriggered r b.entity_id t) rest).insights } := by
  simp [checkRule, hcan]

theorem checkRule_cons_neg (channels : List ChannelRow) (r : AlertRule)
    (t : Nat) (b : Breach) (rest : List (Nat × Breach))
    (hcan : ¬ canTrigger r b.entity_id t = true) :
    checkRule channels r ((t, b) :: rest) = checkRule channels r rest := by
  simp [checkRule, hcan]

theorem canTrigger_elapsed (r : AlertRule) (e : String) (now t0 : Nat)
    (hget : dictGet r.last_triggered e = some t0)
    (hcan : canTrigger r e now = true) :
    r.cooldown_seconds ≤ tdSeconds now t0 := by
  unfold canTrigger at hcan
  rw [hget] at hcan
  exact of_decide_eq_true hcan

/-- Core cooldown invariant of `_check_rule`: processing monotone-timed
breach attempts, every fire is at least one cooldown window after the
recorded last-fired time for its entity, and any two fires for the same
entity are at least one cooldown window apart. -/
theorem checkRule_cooldown_invariant (channels : List ChannelRow)
    (tbs : List (Nat × Breach)) :
    ∀ r : AlertRule,
      tbs.Pairwise (fun a b => a.1 ≤ b.1) →
      (∀ e t0, dictGet r.last_triggered e = some t0 → ∀ a ∈ tbs, t0 ≤ a.1) →
      (∀ f ∈ (checkRule channels r tbs).fires, ∀ t0,
          dictGet r.last_triggered f.2 = some t0
          → t0 + r.cooldown_seconds * 1000000 ≤ f.1)
      ∧ (checkRule channels r tbs).fires.Pairwise
          (fun f g => f.2 = g.2 → f.1 + r.cooldown_seconds * 1000000 ≤ g.1) := by
  induction tbs with
  | nil =>
      intro r _ _
      constructor
      · intro f hf
        simp [checkRule] at hf
      · simp [checkRule]
  | cons tb rest ih =>
      obtain ⟨t, b⟩ := tb
      intro r hmono hr
      rw [List.pairwise_cons] at hmono
      obtain ⟨hhead, htail⟩ := hmono
      have htle : ∀ e t0, dictGet r.last_triggered e = some t0 → t0 ≤ t := by
        intro e t0 hget
        exact hr e t0 hget (t, b) (List.mem_cons_self _ _)
      by_cases hcan : canTrigger r b.entity_id t = true
      · rw [checkRule_cons_pos channels r t b rest hcan]
        have hr' : ∀ e t0,
            dictGet (markTriggered r b.entity_id t).last_triggered e = some t0
            → ∀ a ∈ rest, t0 ≤ a.1 := by
          intro e t0 hget a ha
          by_cases he : e = b.entity_id
          · subst he
            rw [markTriggered, dictGet_dictSet_self] at hget
            cases hget
            exact hhead a ha
          · rw [markTriggered, dictGet_dictSet_ne _ _ _ _ he] at hget
            exact hr e t0 hget a (List.mem_cons_of_mem _ ha)
        have ihspec := ih (markTriggered r b.entity_id t) htail hr'
        constructor
        · intro f hf t0 hget
          rcases List.mem_cons.mp hf with hf1 | hf2
          · subst hf1
            have hel := canTrigger_elapsed r b.entity_id t t0 hget hcan
            exact tdSeconds_ge_bound t t0 r.cooldown_seconds
              (htle b.entity_id t0 hget) hel
          · by_cases he : f.2 = b.entity_id
            · have hmark : dictGet (markTriggered r b.entity_id t).last_triggered f.2
                  = some t := by
                rw [he, markTriggered, dictGet_dictSet_self]
              have hbound := ihspec.1 f hf2 t hmark
              have ht0t : t0 ≤ t := htle f.2 t0 hget
              calc t0 + r.cooldown_seconds * 1000000
                  ≤ t + r.cooldown_seconds * 1000000 := by omega
                _ = t + (markTriggered r b.entity_id t).cooldown_seconds * 1000000 := rfl
                _ ≤ f.1 := hbound
            · have hmark : dictGet (markTriggered r b.entity_id t).last_triggered f.2
                  = some t0 := by
                rw [markTriggered, dictGet_dictSet_ne _ _ _ _ he]
                exact hget
              exact ihspec.1 f hf2 t0 hmark
        · rw [List.pairwise_cons]
          constructor
          · intro g hg hge
            have hmark : dictGet (markTriggered r b.entity_id t).last_triggered g.2
                = some t := by
              rw [← hge, markTriggered, dictGet_dictSet_self]
            exact ihspec.1 g hg t hmark
          · exact ihspec.2
      · rw [checkRule_cons_neg channels r t b rest hcan]
        exact ih r htail
          (fun e t0 hget a ha => hr e t0 hget a (List.mem_cons_of_mem _ ha))

/-- C4: a rule as registered by `_setup_rules` (cooldown 300 s, empty
last-fired map) never emits two alerts for the same entity id closer
than 300 seconds apart, for any monotone-timed sequence of breach
attempts. -/
theorem C4_cooldown_between_fires (channels : List ChannelRow) (nm sev : String)
    (tbs : List (Nat × Breach))
    (hmono : tbs.Pairwise (fun a b => a.1 ≤ b.1)) :
    (checkRule channels
      { name := nm, severity := sev, cooldown_seconds := 300, last_triggered := [] }
      tbs).fires.Pairwise
      (fun f g => f.2 = g.2 → f.1 + 300 * 1000000 ≤ g.1) := by
  have h := (checkRule_cooldown_invariant channels tbs
      { name := nm, severity := sev, cooldown_seconds := 300, last_triggered := [] }
      hmono (by intro e t0 hget; simp [dictGet] at hget)).2
  exact h

/-- C4 witness: three breaches for the same source at 0 s, 200 s and
300 s; the rule fires at 0 s and 300 s, 300 seconds apart. -/
theorem C4_cooldown_between_fires_witness :
    ([(0, ({ entity_id := "s1", entity_type := "source", name := "f" } : Breach)),
      (200000000, { entity_id := "s1", entity_type := "source", name := "f" }),
      (300000000, { entity_id := "s1", entity_type := "source", name := "f" })]
        : List (Nat × Breach)).Pairwise (fun a b => a.1 ≤ b.1)
    ∧ (checkRule []
        { name := "low_bitrate", severity := "warning"
          cooldown_seconds := 300, last_triggered := [] }
        [(0, { entity_id := "s1", entity_type := "source", name := "f" }),
         (200000000, { entity_id := "s1", entity_type := "source", name := "f" }),
         (300000000, { entity_id := "s1", entity_type := "source", name := "f" })]).fires.Pairwise
        (fun f g => f.2 = g.2 → f.1 + 300 * 1000000 ≤ g.1) :=
  ⟨by decide, C4_cooldown_between_fires [] "low_bitrate" "warning" _ (by decide)⟩

/-- C10: a firing source breach whose source id is referenced by no
channel row creates no insight, yet the per-entity last-fired timestamp
is still updated to the firing time, and the rule cannot fire again for
that entity within the following cooldown window. -/
theorem C10_orphan_breach_suppresses (r : AlertRule) (channels : List ChannelRow)
    (b : Breach) (t t2 : Nat)
    (hty : b.entity_type = "source")
    (hch : ∀ ch ∈ channels, ch.source_id ≠ some b.entity_id)
    (hcan : canTrigger r b.entity_id t = true)
    (hcool : r.cooldown_seconds = 300)
    (ht2 : t ≤ t2) (hwin : t2 < t + 300 * 1000000) :
    (checkRule channels r [(t, b)]).insights = []
    ∧ dictGet (checkRule channels r [(t, b)]).rule.last_triggered b.entity_id = some t
    ∧ canTrigger (checkRule channels r [(t, b)]).rule b.entity_id t2 = false := by
  have hfind : channels.find? (fun c => c.source_id = some b.entity_id) = none := by
    rw [List.find?_eq_none]
    intro ch hmem
    simp [hch ch hmem]
  have hca : createAlert channels r b = none := by
    unfold createAlert
    rw [hty]
    simp [hfind]
  have hstep : checkRule channels r [(t, b)]
      = { rule := markTriggered r b.entity_id t
          fires := [(t, b.entity_id)], insights := [] } := by
    rw [checkRule_cons_pos channels r t b [] hcan, hca]
    simp [checkRule]
  rw [hstep]
  refine ⟨rfl, ?_, ?_⟩
  · rw [markTriggered, dictGet_dictSet_self]
  · have hlt : tdSeconds t2 t < 300 := tdSeconds_lt_window t2 t 300 ht2 hwin
    unfold canTrigger
    simp only [markTriggered, dictGet_dictSet_self]
    exact decide_eq_false (by omega)

/-- C10 witness: one orphan source breach at time 0 with a fresh rule;
no insight, last-fired recorded, and a retry 299 s later cannot fire. -/
theorem C10_orphan_breach_suppresses_witness :
    (checkRule [{ id := "c1", source_id := some "other" }]
      { name := "low_bitrate", severity := "warning"
        cooldown_seconds := 300, last_triggered := [] }
      [(0, { entity_id := "s1", entity_type := "source", name := "f" })]).insights = []
    ∧ dictGet (checkRule [{ id := "c1", source_id := some "other" }]
        { name := "low_bitrate", severity := "warning"
          cooldown_seconds := 300, last_triggered := [] }
        [(0, { entity_id := "s1", entity_type := "source", name := "f" })]).rule.last_triggered
        "s1" = some 0
    ∧ canTrigger (checkRule [{ id := "c1", source_id := some "other" }]
        { name := "low_bitrate", severity := "warning"
          cooldown_seconds := 300, last_triggered := [] }
        [(0, { entity_id := "s1", entity_type := "source", name := "f" })]).rule
        "s1" 299000000 = false :=
  C10_orphan_breach_suppresses
    { name := "low_bitrate", severity := "warning"
      cooldown_seconds := 300, last_triggered := [] }
    [{ id := "c1", source_id := some "other" }]
    { entity_id := "s1", entity_type := "source", name := "f" }
    0 299000000 rfl (by decide) (by decide) rfl (by decide) (by decide)

/-- C3: when `start_ingest` fails — the hosted-video URL resolution
returns nothing (raising a `ValueError` in `_build_input_args`) or the
subprocess spawn raises — the call raises, fires the error callback
when one was given, and registers nothing: the active-process registry
is exactly what it was before the call, and no process is stopped. -/
theorem C3_failed_start_ingest (reg : List (String × Nat))
    (sid protocol endpoint : String) (params : Option ConnParams)
    (hasCb : Bool) (env : IngestEnv)
    (hfail : (protocol = "youtube" ∧ env.resolveResult = none)
      ∨ ∃ m, env.spawnResult = Except.error m) :
    (∃ m, (startIngest reg sid protocol endpoint params hasCb env).outcome
        = Except.error m)
    ∧ (startIngest reg sid protocol endpoint params hasCb env).registry = reg
    ∧ (startIngest reg sid protocol endpoint params hasCb env).stopped = []
    ∧ (hasCb = true
        → (startIngest reg sid protocol endpoint params hasCb env).callbackErrors
            ≠ []) := by
  cases hb : buildInputArgs protocol endpoint params env.resolveResult with
  | error e =>
      have hs : startIngest reg sid protocol endpoint params hasCb env
          = { registry := reg
              callbackErrors := if hasCb then [e] else []
              stopped := []
              outcome := Except.error e } := by
        unfold startIngest
        rw [hb]
      rw [hs]
      refine ⟨⟨e, rfl⟩, rfl, rfl, ?_⟩
      intro hc
      simp [hc]
  | ok args =>
      rcases hfail with ⟨hyt, hres⟩ | ⟨m, hsp⟩
      · subst hyt
        rw [hres] at hb
        simp [buildInputArgs] at hb
      · have hs : startIngest reg sid protocol endpoint params hasCb env
            = { registry := reg
                callbackErrors := if hasCb then [m] else []
                stopped := []
                outcome := Except.error m } := by
          unfold startIngest
          rw [hb, hsp]
        rw [hs]
        refine ⟨⟨m, rfl⟩, rfl, rfl, ?_⟩
        intro hc
        simp [hc]

/-- C3 witness: a hosted-video source whose URL resolution fails, with
a callback installed — the call errors, the registry stays empty, and
the callback list is non-empty. -/
theorem C3_failed_start_ingest_witness :
    (∃ m, (startIngest [] "s1" "youtube" "https://youtu.be/abcdefghijk" none true
        { resolveResult := none, spawnResult := Except.ok 5 }).outcome
          = Except.error m)
    ∧ (startIngest [] "s1" "youtube" "https://youtu.be/abcdefghijk" none true
        { resolveResult := none, spawnResult := Except.ok 5 }).registry = []
    ∧ (startIngest [] "s1" "youtube" "https://youtu.be/abcdefghijk" none true
        { resolveResult := none, spawnResult := Except.ok 5 }).stopped = []
    ∧ (true = true
        → (startIngest [] "s1" "youtube" "https://youtu.be/abcdefghijk" none true
            { resolveResult := none, spawnResult := Except.ok 5 }).callbackErrors
              ≠ []) :=
  C3_failed_start_ingest [] "s1" "youtube" "https://youtu.be/abcdefghijk" none true
    { resolveResult := none, spawnResult := Except.ok 5 } (Or.inl ⟨rfl, rfl⟩)

/-- C9: `start_ingest` on a key that already holds a handle replaces
the registry entry with the freshly spawned handle by plain dict
assignment: no process is terminated or signalled, the key maps to
exactly one entry (the new pid), the error callback never fires, and
every other key's entry is untouched. -/
theorem C9_start_replaces_without_stopping (reg : List (String × Nat))
    (sid protocol endpoint : String) (params : Option ConnParams) (hasCb : Bool)
    (env : IngestEnv) (oldPid newPid : Nat) (args : List String)
    (hold : dictGet reg sid = some oldPid)
    (hcount : countKey reg sid = 1)
    (hbuild : buildInputArgs protocol endpoint params env.resolveResult
      = Except.ok args)
    (hspawn : env.spawnResult = Except.ok newPid) :
    (startIngest reg sid protocol endpoint params hasCb env).stopped = []
    ∧ (startIngest reg sid protocol endpoint params hasCb env).callbackErrors = []
    ∧ dictGet (startIngest reg sid protocol endpoint params hasCb env).registry sid
        = some newPid
    ∧ countKey (startIngest reg sid protocol endpoint params hasCb env).registry sid
        = 1
    ∧ ∀ k, k ≠ sid →
        dictGet (startIngest reg sid protocol endpoint params hasCb env).registry k
          = dictGet reg k := by
  have hs : startIngest reg sid protocol endpoint params hasCb env
      = { registry := dictSet reg sid newPid, callbackErrors := []
          stopped := [], outcome := Except.ok newPid } := by
    unfold startIngest
    rw [hbuild, hspawn]
  rw [hs]
  refine ⟨rfl, rfl, dictGet_dictSet_self _ _ _, ?_, ?_⟩
  · rw [countKey_dictSet, hcount]
    simp
  · intro k hk
    exact dictGet_dictSet_ne _ _ _ _ hk

/-- C9 witness: key `s1` holds pid 7; a new start spawns pid 9 — the
registry maps `s1` to exactly the new pid and nothing is stopped. -/
theorem C9_start_replaces_without_stopping_witness :
    (startIngest [("s1", 7)] "s1" "hls" "http://h/x.m3u8" none false
        { resolveResult := none, spawnResult := Except.ok 9 }).stopped = []
    ∧ (startIngest [("s1", 7)] "s1" "hls" "http://h/x.m3u8" none false
        { resolveResult := none, spawnResult := Except.ok 9 }).callbackErrors = []
    ∧ dictGet (startIngest [("s1", 7)] "s1" "hls" "http://h/x.m3u8" none false
        { resolveResult := none, spawnResult := Except.ok 9 }).registry "s1"
        = some 9
    ∧ countKey (startIngest [("s1", 7)] "s1" "hls" "http://h/x.m3u8" none false
        { resolveResult := none, spawnResult := Except.ok 9 }).registry "s1" = 1
    ∧ ∀ k, k ≠ "s1" →
        dictGet (startIngest [("s1", 7)] "s1" "hls" "http://h/x.m3u8" none false
          { resolveResult := none, spawnResult := Except.ok 9 }).registry k
          = dictGet [("s1", 7)] k :=
  C9_start_replaces_without_stopping [("s1", 7)] "s1" "hls" "http://h/x.m3u8"
    none false { resolveResult := none, spawnResult := Except.ok 9 } 7 9
    ["-i", "http://h/x.m3u8"] (by decide) (by decide) rfl rfl

/-- C6: stopping a recording that is in `recording` status with a
recorded start timestamp — on any of the three stop paths, which all
funnel into `RecordingService.stop_recording` — marks it `completed`,
sets the end timestamp, and sets `duration_seconds` to the non-null
whole-second difference between end and start. -/
theorem C6_stop_recording_completes (rec : Recording) (ar : List (String × Nat))
    (now s : Nat)
    (hst : rec.status = RecordingStatus.recording)
    (hstart : rec.started_at = some s) :
    (stopRecording rec now).status = RecordingStatus.completed
    ∧ (stopRecording rec now).ended_at = some now
    ∧ (stopRecording rec now).duration_seconds = some ((now - s) / 1000000)
    ∧ monitorRecordingFinalize rec now = stopRecording rec now
    ∧ (workerStopRecording ar rec now).1 = stopRecording rec now := by
  refine ⟨rfl, rfl, ?_, ?_, ?_⟩
  · unfold stopRecording
    simp [hstart]
  · unfold monitorRecordingFinalize
    rw [if_pos hst]
  · unfold workerStopRecording
    cases h : dictGet ar rec.id <;> rfl

/-- C6 witness: a recording started at 0 and stopped at 5.5 s ends
`completed` with duration 5 whole seconds. -/
theorem C6_stop_recording_completes_witness :
    (stopRecording
        { id := "r1", channel_id := "c1", started_at := some 0, ended_at := none
          duration_seconds := none, status := RecordingStatus.recording
          file_path := some "/rec/r1.mp4" } 5500000).status
      = RecordingStatus.completed
    ∧ (stopRecording
        { id := "r1", channel_id := "c1", started_at := some 0, ended_at := none
          duration_seconds := none, status := RecordingStatus.recording
          file_path := some "/rec/r1.mp4" } 5500000).ended_at = some 5500000
    ∧ (stopRecording
        { id := "r1", channel_id := "c1", started_at := some 0, ended_at := none
          duration_seconds := none, status := RecordingStatus.recording
          file_path := some "/rec/r1.mp4" } 5500000).duration_seconds
        = some ((5500000 - 0) / 1000000)
    ∧ monitorRecordingFinalize
        { id := "r1", channel_id := "c1", started_at := some 0, ended_at := none
          duration_seconds := none, status := RecordingStatus.recording
          file_path := some "/rec/r1.mp4" } 5500000
      = stopRecording
        { id := "r1", channel_id := "c1", started_at := some 0, ended_at := none
          duration_seconds := none, status := RecordingStatus.recording
          file_path := some "/rec/r1.mp4" } 5500000
    ∧ (workerStopRecording [("r1", 33)]
        { id := "r1", channel_id := "c1", started_at := some 0, ended_at := none
          duration_seconds := none, status := RecordingStatus.recording
          file_path := some "/rec/r1.mp4" } 5500000).1
      = stopRecording
        { id := "r1", channel_id := "c1", started_at := some 0, ended_at := none
          duration_seconds := none, status := RecordingStatus.recording
          file_path := some "/rec/r1.mp4" } 5500000 :=
  C6_stop_recording_completes
    { id := "r1", channel_id := "c1", started_at := some 0, ended_at := none
      duration_seconds := none, status := RecordingStatus.recording
      file_path := some "/rec/r1.mp4" } [("r1", 33)] 5500000 0 rfl rfl

/-- C7 counterexample: an active `online` source whose most recent
metric row carries bitrate 0 kbps — a value below the 500 kbps
threshold — produces no breach, because Python evaluates
`recent_metric.bitrate_kbps` for truthiness and `0` is falsy. -/
theorem C7_counterexample :
    checkLowBitrateOne
      { id := "s1", name := "fonte", protocol := "udp"
        endpoint_url := "udp://239.1.1.1:1234", status := SourceStatus.online
        last_seen_at := some 0, created_at := some 0, is_active := true }
      (some { timestamp := 0, video_codec := some "h264", audio_codec := none
              resolution := none, fps := none, bitrate_kbps := some 0 }) = none
    ∧ (0 : Nat) < 500 := by
  exact ⟨by decide, by decide⟩

/-- C7 (amended): for an active `online` source whose most recent
metric carries a non-null, non-zero bitrate below 500 kbps, the
low-bitrate check returns one breach descriptor for that source, and
the registered rule's severity is `warning`. -/
theorem C7_low_bitrate_breach (s : Source) (m : MetricRow) (bk : Nat)
    (hact : s.is_active = true) (hst : s.status = SourceStatus.online)
    (hbk : m.bitrate_kbps = some bk) (hnz : bk ≠ 0) (hlt : bk < 500) :
    checkLowBitrateOne s (some m)
      = some { entity_id := s.id, entity_type := "source", name := s.name }
    ∧ lowBitrateRule.severity = "warning" := by
  refine ⟨?_, rfl⟩
  unfold checkLowBitrateOne
  rw [hact, hst]
  simp [pyTruthyNat, hbk, hnz, hlt]

/-- C7 witness: bitrate 300 kbps on an online source yields the
breach. -/
theorem C7_low_bitrate_breach_witness :
    checkLowBitrateOne
      { id := "s1", name := "fonte", protocol := "udp"
        endpoint_url := "udp://239.1.1.1:1234", status := SourceStatus.online
        last_seen_at := some 0, created_at := some 0, is_active := true }
      (some { timestamp := 0, video_codec := some "h264", audio_codec := none
              resolution := none, fps := none, bitrate_kbps := some 300 })
      = some { entity_id := "s1", entity_type := "source", name := "fonte" }
    ∧ lowBitrateRule.severity = "warning" :=
  C7_low_bitrate_breach
    { id := "s1", name := "fonte", protocol := "udp"
      endpoint_url := "udp://239.1.1.1:1234", status := SourceStatus.online
      last_seen_at := some 0, created_at := some 0, is_active := true }
    { timestamp := 0, video_codec := some "h264", audio_codec := none
      resolution := none, fps := none, bitrate_kbps := some 300 }
    300 rfl rfl rfl (by decide) (by decide)

theorem firstOctetRegex_val (a : List Char) (h : firstOctetRegex a = true) :
    224 ≤ digitsVal a ∧ digitsVal a ≤ 239 := by
  rcases a with _ | ⟨c1, a⟩
  · simp [firstOctetRegex] at h
  rcases a with _ | ⟨c2, a⟩
  · simp [firstOctetRegex] at h
  rcases a with _ | ⟨c3, a⟩
  · simp [firstOctetRegex] at h
  rcases a with _ | ⟨c4, a⟩
  · simp only [firstOctetRegex] at h
    by_cases h22 : c1 = '2' ∧ c2 = '2'
    · rw [if_pos h22] at h
      obtain ⟨h1, h2⟩ := h22
      subst h1
      subst h2
      have hb := of_decide_eq_true h
      unfold digitsVal
      simp only [List.foldl]
      have hc : ('2' : Char).toNat = 50 := rfl
      rw [hc]
      omega
    · rw [if_neg h22] at h
      by_cases h23 : c1 = '2' ∧ c2 = '3'
      · rw [if_pos h23] at h
        obtain ⟨h1, h2⟩ := h23
        subst h1
        subst h2
        have hb := of_decide_eq_true h
        unfold digitsVal
        simp only [List.foldl]
        have hc2 : ('2' : Char).toNat = 50 := rfl
        have hc3 : ('3' : Char).toNat = 51 := rfl
        rw [hc2, hc3]
        omega
      · rw [if_neg h23] at h
        cases h
  · simp [firstOctetRegex] at h

/-- C8 counterexample: the schema regex accepts `224.999.0.0`, which is
not an IPv4 address in 224.0.0.0–239.255.255.255 (an octet exceeds
255), so the validator does not reject every invalid group; it is also
the only multicast validation anywhere — `_build_input_args` merely
logs the group. -/
theorem C8_counterexample :
    multicastRegexAccepts "224.999.0.0" = true
    ∧ specMulticastIPv4 "224.999.0.0" = false
    ∧ validateConnectionParams "udp"
        (some { latency := none, mode := none, buffer_size := none
                multicast_group := some "224.999.0.0", transport := none })
        = true :=
  ⟨by decide, by decide, by decide⟩

/-- C8 (amended): for a datagram/multicast source the input arguments
apply the configurable receive buffer size (default 212992); a
specified multicast group is checked only at schema level against the
regex `^(22[4-9]|23[0-9])\.(\d{1,3})\.(\d{1,3})\.(\d{1,3})$`, whose
accepted strings always open with a first octet between 224 and 239
but whose remaining groups may exceed 255, so acceptance does not imply
a valid in-range IPv4 address. -/
theorem C8_udp_buffer_and_regex (endpoint : String) (p : ConnParams)
    (r : Option String) (g : String) :
    buildInputArgs "udp" endpoint (some p) r
      = Except.ok ["-buffer_size", toString (p.buffer_size.getD 212992), "-i", endpoint]
    ∧ validateConnectionParams "udp" (some { p with multicast_group := some g })
        = multicastRegexAccepts g
    ∧ (multicastRegexAccepts g = true →
        ∀ a rest, splitDots g.toList = a :: rest
          → 224 ≤ digitsVal a ∧ digitsVal a ≤ 239) := by
  refine ⟨?_, ?_, ?_⟩
  · simp [buildInputArgs]
  · simp [validateConnectionParams]
  · intro hacc a rest hsplit
    unfold multicastRegexAccepts at hacc
    rw [hsplit] at hacc
    rcases rest with _ | ⟨b, rest⟩
    · simp at hacc
    rcases rest with _ | ⟨c, rest⟩
    · simp at hacc
    rcases rest with _ | ⟨d, rest⟩
    · simp at hacc
    rcases rest with _ | ⟨e, rest⟩
    · simp only [Bool.and_eq_true] at hacc
      exact firstOctetRegex_val a hacc.1.1.1
    · simp at hacc

/-- C8 witness: the in-range group `239.1.1.1` passes the regex and its
first octet evaluates into 224–239; the buffer-size argument defaults
to 212992. -/
theorem C8_udp_buffer_and_regex_witness :
    buildInputArgs "udp" "udp://239.1.1.1:1234" (some ConnParams.empty) none
      = Except.ok ["-buffer_size",
          toString (ConnParams.empty.buffer_size.getD 212992),
          "-i", "udp://239.1.1.1:1234"]
    ∧ validateConnectionParams "udp"
        (some { ConnParams.empty with multicast_group := some "239.1.1.1" })
        = multicastRegexAccepts "239.1.1.1"
    ∧ (224 ≤ digitsVal ['2', '3', '9'] ∧ digitsVal ['2', '3', '9'] ≤ 239) := by
  have h := C8_udp_buffer_and_regex "udp://239.1.1.1:1234" ConnParams.empty none
    "239.1.1.1"
  exact ⟨h.1, h.2.1, h.2.2 (by decide) ['2', '3', '9'] [['1'], ['1'], ['1']] (by decide)⟩

end GatewayMatrix
